import Mathlib

/-!
# Synthpop.go: keyed request deduplication and background fulfillment

A shallow embedding of `handleRequest` (src/Synthpop.go, lines 29-73) and of
the goroutine it starts (lines 57-66), together with the properties of the
store `dataStore` (line 27) that the specification states.

Modelling conventions

* `dataStore` is a Go `map[string]Response`; it is embedded as a function
  `String → Option Response` (`none` = key absent).
* The result of `json.NewDecoder(r.Body).Decode(&req)` is an input of the
  model: `Except String Request` (`error` = the decoder failed).
* Every call to `math/rand` is an input of the model (`Draws`, `TaskDraws`);
  the ranges promised by the library are the predicates `Draws.valid` and
  `TaskDraws.valid`.  Floats are exact rationals.
* The goroutine started at line 57 is a `Task` value; its body is `Task.run`.
* `State`, `Event`, `step`, `run`: the process as a sequence of atomic steps,
  each a whole `handleRequest` call or the completion of a started goroutine.
* `Call`, `Overlap`: two calls whose map read (line 41) and map write
  (line 68) are separate steps that a scheduler interleaves.
* Logging, routing and the JSON wire format are not modelled.
-/

namespace Synthpop

/-! ## Data model (lines 13-27) -/

/-- Go struct `Request` (lines 13-18). -/
structure Request where
  Region : String
  Year : String
  Population : String
  Email : String
deriving DecidableEq

/-- Go struct `Response` (lines 20-25); `float64` is an exact rational. -/
structure Response where
  Status : String := ""
  EstimatedTime : String := ""
  SyntheticPopulation : Int := 0
  VerificationScore : ℚ := 0
deriving DecidableEq

/-- Go `map[string]Response` (line 27). -/
abbrev DataStore := String → Option Response

/-- The value of `make(map[string]Response)`. -/
def DataStore.empty : DataStore := fun _ => none

/-- Map assignment `dataStore[k] = v`. -/
def DataStore.set (m : DataStore) (k : String) (v : Response) : DataStore :=
  fun j => if j = k then some v else m j

/-! ## Random source -/

/-- Values returned by the `math/rand` calls of one `handleRequest` call. -/
structure Draws where
  /-- Result of `rand.Float32()` at line 44. -/
  float32 : ℚ
  /-- Result of `rand.Intn(1000000)` at line 47. -/
  intn1000000 : Int
  /-- Result of `rand.Float64()` at line 48. -/
  float64 : ℚ
  /-- Result of `rand.Intn(60)` at line 51. -/
  intn60 : Int

/-- Ranges promised by `math/rand`: `Intn(n)` in `[0, n)`, floats in `[0, 1)`. -/
def Draws.valid (d : Draws) : Prop :=
  0 ≤ d.float32 ∧ d.float32 < 1 ∧
  0 ≤ d.intn1000000 ∧ d.intn1000000 < 1000000 ∧
  0 ≤ d.float64 ∧ d.float64 < 1 ∧
  0 ≤ d.intn60 ∧ d.intn60 < 60

/-- Values returned by the `math/rand` calls of one goroutine (lines 61-62). -/
structure TaskDraws where
  /-- Result of `rand.Intn(1000000)` at line 61. -/
  intn1000000 : Int
  /-- Result of `rand.Float64()` at line 62. -/
  float64 : ℚ

/-- Ranges promised by `math/rand` for the draws of a goroutine. -/
def TaskDraws.valid (d : TaskDraws) : Prop :=
  0 ≤ d.intn1000000 ∧ d.intn1000000 < 1000000 ∧ 0 ≤ d.float64 ∧ d.float64 < 1

/-! ## `time.Duration.String` -/

/-- Go standard library `time.Duration.String`, for a duration of a whole
number of minutes (the only durations line 51 builds): seconds are always
`0s`, the minutes field is printed when the duration is at least one minute,
the hours field when it is at least one hour, a minus sign when negative.
The wrap-around of the `int64` nanosecond count is not modelled; it cannot
occur for the 30 to 89 minutes that line 51 builds from `rand.Intn(60)`. -/
def durationString (minutes : Int) : String :=
  let u := minutes.natAbs
  (if minutes < 0 then "-" else "") ++
  (if 0 < u / 60 then toString (u / 60) ++ "h" else "") ++
  (if 0 < u then toString (u % 60) ++ "m" else "") ++ "0s"

/-! ## `handleRequest` (lines 29-73) -/

/-- The goroutine started at line 57: it captures `key`, `req` (only
`req.Email` is read) and `estimatedTime` (in minutes). -/
structure Task where
  key : String
  email : String
  estimatedTime : Int
deriving DecidableEq

/-- What `handleRequest` writes to the `http.ResponseWriter`. -/
inductive Reply where
  /-- Line 34: `http.Error(w, err.Error(), http.StatusBadRequest)`. -/
  | badRequest (msg : String)
  /-- Lines 71-72: the JSON encoding of `response`. -/
  | ok (response : Response)
deriving DecidableEq

/-- Line 39: `key := req.Region + req.Year + req.Population`. -/
def key (req : Request) : String :=
  req.Region ++ req.Year ++ req.Population

/-- Lines 44-67, the body of `if !exists` up to the store write: the
record built for a key that was not found, and the goroutine started (if any).
The comparison `rand.Float32() < 0.3` is taken over the rationals; fields a
Go struct literal leaves out take their zero values. -/
def generate (req : Request) (d : Draws) : Response × Option Task :=
  if d.float32 < 3 / 10 then
    ({ Status := "ready",
       SyntheticPopulation := d.intn1000000,
       VerificationScore := d.float64 * 100 }, none)
  else
    let estimatedTime := d.intn60 + 30
    ({ Status := "processing",
       EstimatedTime := durationString estimatedTime },
     some { key := key req, email := req.Email, estimatedTime := estimatedTime })

/-- Observable effect of one `handleRequest` call. -/
structure Outcome where
  reply : Reply
  dataStore : DataStore
  spawned : Option Task

/-- Function `handleRequest` (lines 29-73), run without interruption. -/
def handleRequest (dataStore : DataStore) (body : Except String Request)
    (d : Draws) : Outcome :=
  match body with
  | .error err => { reply := .badRequest err, dataStore := dataStore, spawned := none }
  | .ok req =>
    match dataStore (key req) with
    | some response => { reply := .ok response, dataStore := dataStore, spawned := none }
    | none =>
      let g := generate req d
      { reply := .ok g.1, dataStore := dataStore.set (key req) g.1, spawned := g.2 }

/-- Lines 59-63: the record the goroutine stores when it wakes up. -/
def Task.result (td : TaskDraws) : Response :=
  { Status := "ready",
    SyntheticPopulation := td.intn1000000,
    VerificationScore := td.float64 * 100 }

/-- Lines 58-63: the goroutine body, `dataStore[key] = Response{...}`. -/
def Task.run (t : Task) (dataStore : DataStore) (td : TaskDraws) : DataStore :=
  dataStore.set t.key (Task.result td)

/-! ## Sequential system: calls and goroutine completions as atomic steps -/

/-- Process state: the map, the goroutines started and not yet finished, and
a history of the keys of every goroutine ever started. -/
structure State where
  dataStore : DataStore
  pending : List Task
  scheduled : List String

/-- State at process start. -/
def State.init : State :=
  { dataStore := DataStore.empty, pending := [], scheduled := [] }

/-- One atomic step of the process. -/
inductive Event where
  /-- A whole `handleRequest` call. -/
  | submit (body : Except String Request) (d : Draws)
  /-- The goroutine at position `i` of `pending` wakes up and finishes. -/
  | complete (i : Nat) (td : TaskDraws)

/-- Effect of one event; completing a goroutine that does not exist does nothing. -/
def step (s : State) : Event → State
  | .submit body d =>
    let o := handleRequest s.dataStore body d
    { dataStore := o.dataStore,
      pending := s.pending ++ o.spawned.toList,
      scheduled := s.scheduled ++ o.spawned.toList.map Task.key }
  | .complete i td =>
    match s.pending.get? i with
    | none => s
    | some t =>
      { dataStore := t.run s.dataStore td,
        pending := s.pending.eraseIdx i,
        scheduled := s.scheduled }

/-- Effect of a finite sequence of events. -/
def run (s : State) (evs : List Event) : State :=
  evs.foldl step s

/-! ## Two overlapping calls: lookup and insert as separate steps -/

/-- Progress of one `handleRequest` call whose body decoded. -/
inductive Call where
  /-- Before the map read of line 41. -/
  | start (req : Request) (d : Draws)
  /-- After line 41: `found` is `some response` when `exists` is true. -/
  | looked (req : Request) (d : Draws) (found : Option Response)
  /-- After line 69; `spawned` tells whether the `go` statement of line 57 ran. -/
  | done (response : Response) (spawned : Bool)

/-- One step of a call: first the map read of line 41, then lines 42-69 (the
decision, the `go` statement and the map write of line 68). -/
def Call.advance (s : State) : Call → State × Call
  | .start req d => (s, .looked req d (s.dataStore (key req)))
  | .looked _ _ (some response) => (s, .done response false)
  | .looked req d none =>
    let g := generate req d
    ({ dataStore := s.dataStore.set (key req) g.1,
       pending := s.pending ++ g.2.toList,
       scheduled := s.scheduled ++ g.2.toList.map Task.key },
     .done g.1 g.2.isSome)
  | .done response spawned => (s, .done response spawned)

/-- Whether the call has started a goroutine. -/
def Call.spawned : Call → Bool
  | .done _ b => b
  | _ => false

/-- A call that can no longer start a goroutine once key `k` is in the map:
it has not read the map yet and will read key `k`, or it has found a record,
or it has finished without starting one. -/
def Call.settled (k : String) : Call → Prop
  | .start req _ => key req = k
  | .looked _ _ found => found ≠ none
  | .done _ b => b = false

/-- Two calls in flight over one process state. -/
structure Overlap where
  state : State
  first : Call
  second : Call

/-- The scheduler lets one call take its next step: `false` the first call,
`true` the second. -/
def Overlap.step (c : Overlap) (turn : Bool) : Overlap :=
  if turn then
    { state := (c.second.advance c.state).1, first := c.first,
      second := (c.second.advance c.state).2 }
  else
    { state := (c.first.advance c.state).1, first := (c.first.advance c.state).2,
      second := c.second }

/-- Effect of a schedule, a finite sequence of turns. -/
def Overlap.run (c : Overlap) (turns : List Bool) : Overlap :=
  turns.foldl Overlap.step c

/-- Two calls about to start on state `s`. -/
def Overlap.begin (s : State) (r1 r2 : Request) (d1 d2 : Draws) : Overlap :=
  { state := s, first := .start r1 d1, second := .start r2 d2 }

/-! ## Properties of records and states -/

/-- The shape of a stored record: a processing record carries an estimate and
no result, a ready record carries no estimate. -/
def Response.wellFormed (r : Response) : Prop :=
  (r.Status = "processing" ∧ r.EstimatedTime ≠ "" ∧
    r.SyntheticPopulation = 0 ∧ r.VerificationScore = 0) ∨
  (r.Status = "ready" ∧ r.EstimatedTime = "")

/-- Every key for which a goroutine was started is in the map, and no key
occurs twice in the history. -/
def State.scheduledOnce (s : State) : Prop :=
  s.scheduled.Nodup ∧ ∀ k ∈ s.scheduled, s.dataStore k ≠ none

/-! ## Sample inputs -/

/-- The request of the specification's scenario. -/
def euRequest : Request :=
  { Region := "EU", Year := "2024", Population := "1000000", Email := "a@example.org" }

/-- The same logical request sent from another contact address. -/
def euRequestOther : Request :=
  { Region := "EU", Year := "2024", Population := "1000000", Email := "b@example.org" }

/-- A different logical request: year 202, population 41000000. -/
def euRequestShifted : Request :=
  { Region := "EU", Year := "202", Population := "41000000", Email := "c@example.org" }

/-- A decoded request whose `region` member was missing from the JSON body. -/
def noRegionRequest : Request :=
  { Region := "", Year := "2024", Population := "1000000", Email := "a@example.org" }

/-- Draws that take the `else` branch of line 44 with a 45 minute estimate. -/
def slowDraws : Draws :=
  { float32 := 1 / 2, intn1000000 := 0, float64 := 0, intn60 := 15 }

/-- Draws that take the `then` branch of line 44. -/
def fastDraws : Draws :=
  { float32 := 1 / 10, intn1000000 := 123456, float64 := 1 / 2, intn60 := 0 }

/-- Draws of a goroutine. -/
def sampleTaskDraws : TaskDraws :=
  { intn1000000 := 999999, float64 := 3 / 4 }

/-- A finished record. -/
def sampleRecord : Response :=
  { Status := "ready", SyntheticPopulation := 42, VerificationScore := 7 }

/-- A store holding `sampleRecord` under the key of `euRequest`. -/
def sampleStore : DataStore :=
  DataStore.empty.set "EU20241000000" sampleRecord

/-- The process state after a slow-path submission of `euRequest`. -/
def processingState : State :=
  { dataStore := DataStore.empty.set "EU20241000000"
      { Status := "processing", EstimatedTime := "45m0s" },
    pending := [{ key := "EU20241000000", email := "a@example.org", estimatedTime := 45 }],
    scheduled := ["EU20241000000"] }

/-- The process state after the goroutine of `processingState` has finished
with `sampleTaskDraws`. -/
def readyState : State :=
  { dataStore := (DataStore.empty.set "EU20241000000"
      { Status := "processing", EstimatedTime := "45m0s" }).set "EU20241000000"
      (Task.result sampleTaskDraws),
    pending := [],
    scheduled := ["EU20241000000"] }

/-! ## Basic facts about the store and the record builders -/

theorem DataStore.set_same (m : DataStore) (k : String) (v : Response) :
    m.set k v k = some v := by
  simp [DataStore.set]

theorem DataStore.set_other (m : DataStore) (k j : String) (v : Response)
    (h : j ≠ k) : m.set k v j = m j := by
  simp [DataStore.set, h]

theorem DataStore.set_ne_none (m : DataStore) (k j : String) (v : Response)
    (h : m j ≠ none) : m.set k v j ≠ none := by
  unfold DataStore.set
  split
  · simp
  · exact h

theorem durationString_ne_empty (minutes : Int) : durationString minutes ≠ "" := by
  intro h
  have hlen := congrArg String.length h
  simp only [durationString, String.length_append] at hlen
  have h2 : ("0s" : String).length = 2 := by decide
  have h0 : ("" : String).length = 0 := by decide
  omega

/-- The estimates line 51 can build range from 30 to 89 minutes. -/
theorem durationString_samples :
    durationString 30 = "30m0s" ∧ durationString 59 = "59m0s" ∧
    durationString 60 = "1h0m0s" ∧ durationString 89 = "1h29m0s" := by
  decide

theorem key_congr (r1 r2 : Request) (hR : r1.Region = r2.Region)
    (hY : r1.Year = r2.Year) (hP : r1.Population = r2.Population) :
    key r1 = key r2 := by
  simp [key, hR, hY, hP]

theorem generate_fst_congr (r1 r2 : Request) (d : Draws) :
    (generate r1 d).1 = (generate r2 d).1 := by
  unfold generate
  split <;> rfl

theorem handleRequest_found (m : DataStore) (req : Request) (d : Draws)
    (response : Response) (h : m (key req) = some response) :
    handleRequest m (.ok req) d =
      { reply := .ok response, dataStore := m, spawned := none } := by
  simp [handleRequest, h]

theorem handleRequest_absent (m : DataStore) (req : Request) (d : Draws)
    (h : m (key req) = none) :
    handleRequest m (.ok req) d =
      { reply := .ok (generate req d).1,
        dataStore := m.set (key req) (generate req d).1,
        spawned := (generate req d).2 } := by
  simp [handleRequest, h]

/-- After any call on a decoded request the reply is a record and the store
holds that record under the key of the request. -/
theorem handleRequest_reply_stored (m : DataStore) (req : Request) (d : Draws) :
    ∃ response, (handleRequest m (.ok req) d).reply = .ok response ∧
      (handleRequest m (.ok req) d).dataStore (key req) = some response := by
  cases hm : m (key req) with
  | none =>
    rw [handleRequest_absent m req d hm]
    exact ⟨_, rfl, DataStore.set_same _ _ _⟩
  | some response =>
    rw [handleRequest_found m req d response hm]
    exact ⟨response, rfl, hm⟩

theorem generate_wellFormed (req : Request) (d : Draws) :
    (generate req d).1.wellFormed := by
  unfold generate
  split
  · exact Or.inr ⟨rfl, rfl⟩
  · exact Or.inl ⟨rfl, durationString_ne_empty _, rfl, rfl⟩

theorem Task.result_wellFormed (td : TaskDraws) : (Task.result td).wellFormed :=
  Or.inr ⟨rfl, rfl⟩

theorem generate_snd_key (req : Request) (d : Draws) (t : Task)
    (h : (generate req d).2 = some t) : t.key = key req := by
  unfold generate at h
  split at h
  · cases h
  · simp only [Option.some.injEq] at h
    rw [← h]

/-- A call starts a goroutine only for the key of its request, and only when
that key was absent. -/
theorem handleRequest_spawned (m : DataStore) (body : Except String Request)
    (d : Draws) (t : Task) (h : (handleRequest m body d).spawned = some t) :
    m t.key = none ∧ (handleRequest m body d).dataStore t.key ≠ none := by
  cases body with
  | error err => cases h
  | ok req =>
    cases hm : m (key req) with
    | some response =>
      rw [handleRequest_found m req d response hm] at h
      cases h
    | none =>
      rw [handleRequest_absent m req d hm] at h ⊢
      have hk : t.key = key req := generate_snd_key req d t h
      rw [hk]
      exact ⟨hm, by simp [DataStore.set]⟩

/-- A call never overwrites a record that is already stored. -/
theorem handleRequest_keeps (m : DataStore) (body : Except String Request)
    (d : Draws) (k : String) (r : Response) (h : m k = some r) :
    (handleRequest m body d).dataStore k = some r := by
  cases body with
  | error err => exact h
  | ok req =>
    cases hm : m (key req) with
    | some response =>
      rw [handleRequest_found m req d response hm]
      exact h
    | none =>
      rw [handleRequest_absent m req d hm]
      have hne : k ≠ key req := by
        intro hk
        rw [hk, hm] at h
        cases h
      exact (DataStore.set_other m (key req) k _ hne).trans h

/-- Every record in the store after a call was there before or is the one
the call built. -/
theorem handleRequest_sources (m : DataStore) (body : Except String Request)
    (d : Draws) (k : String) (r : Response)
    (h : (handleRequest m body d).dataStore k = some r) :
    m k = some r ∨ ∃ req, body = .ok req ∧ r = (generate req d).1 := by
  cases body with
  | error err => exact Or.inl h
  | ok req =>
    cases hm : m (key req) with
    | some response =>
      rw [handleRequest_found m req d response hm] at h
      exact Or.inl h
    | none =>
      rw [handleRequest_absent m req d hm] at h
      dsimp only at h
      by_cases hk : k = key req
      · right
        rw [hk, DataStore.set_same] at h
        exact ⟨req, rfl, (Option.some.inj h).symm⟩
      · left
        rw [DataStore.set_other m (key req) k _ hk] at h
        exact h

theorem run_nil (s : State) : run s [] = s := rfl

theorem run_cons (s : State) (e : Event) (evs : List Event) :
    run s (e :: evs) = run (step s e) evs := rfl

/-- A property kept by every step holds after every run. -/
theorem run_preserves (P : State → Prop) (hstep : ∀ s e, P s → P (step s e))
    (evs : List Event) : ∀ s, P s → P (run s evs) := by
  induction evs with
  | nil => intro s hs; exact hs
  | cons e evs ih => intro s hs; exact ih (step s e) (hstep s e hs)

theorem step_submit (s : State) (body : Except String Request) (d : Draws) :
    step s (.submit body d) =
      { dataStore := (handleRequest s.dataStore body d).dataStore,
        pending := s.pending ++ (handleRequest s.dataStore body d).spawned.toList,
        scheduled := s.scheduled ++
          (handleRequest s.dataStore body d).spawned.toList.map Task.key } := rfl

theorem step_complete_none (s : State) (i : Nat) (td : TaskDraws)
    (h : s.pending.get? i = none) : step s (.complete i td) = s := by
  show (match s.pending.get? i with
    | none => s
    | some t => ({ dataStore := t.run s.dataStore td, pending := s.pending.eraseIdx i,
                   scheduled := s.scheduled } : State)) = s
  rw [h]

theorem step_complete_some (s : State) (i : Nat) (td : TaskDraws) (t : Task)
    (h : s.pending.get? i = some t) :
    step s (.complete i td) =
      { dataStore := s.dataStore.set t.key (Task.result td),
        pending := s.pending.eraseIdx i,
        scheduled := s.scheduled } := by
  show (match s.pending.get? i with
    | none => s
    | some t => ({ dataStore := t.run s.dataStore td, pending := s.pending.eraseIdx i,
                   scheduled := s.scheduled } : State)) = _
  rw [h]
  rfl

theorem step_keeps_entry (k : String) (s : State) (e : Event)
    (h : s.dataStore k ≠ none) : (step s e).dataStore k ≠ none := by
  cases e with
  | submit body d =>
    cases hk : s.dataStore k with
    | none => exact absurd hk h
    | some r =>
      have := handleRequest_keeps s.dataStore body d k r hk
      simp [step, this]
  | complete i td =>
    cases hp : s.pending.get? i with
    | none => rw [step_complete_none s i td hp]; exact h
    | some t =>
      rw [step_complete_some s i td t hp]
      exact DataStore.set_ne_none _ _ _ _ h

theorem step_wellFormed (s : State) (e : Event)
    (h : ∀ k r, s.dataStore k = some r → r.wellFormed) :
    ∀ k r, (step s e).dataStore k = some r → r.wellFormed := by
  intro k r hk
  cases e with
  | submit body d =>
    rcases handleRequest_sources s.dataStore body d k r hk with hold | ⟨req, _, hnew⟩
    · exact h k r hold
    · rw [hnew]
      exact generate_wellFormed req d
  | complete i td =>
    cases hp : s.pending.get? i with
    | none =>
      rw [step_complete_none s i td hp] at hk
      exact h k r hk
    | some t =>
      rw [step_complete_some s i td t hp] at hk
      by_cases hkt : k = t.key
      · have : r = Task.result td := by
          simpa [DataStore.set, hkt] using hk.symm
        rw [this]
        exact Task.result_wellFormed td
      · exact h k r (by simpa [DataStore.set, hkt] using hk)

theorem step_scheduledOnce (s : State) (e : Event) (h : s.scheduledOnce) :
    (step s e).scheduledOnce := by
  obtain ⟨hnd, hin⟩ := h
  cases e with
  | submit body d =>
    cases hsp : (handleRequest s.dataStore body d).spawned with
    | none =>
      refine ⟨by simpa [step, hsp] using hnd, ?_⟩
      intro k hk
      have hk0 : k ∈ s.scheduled := by simpa [step, hsp] using hk
      exact step_keeps_entry k s (.submit body d) (hin k hk0)
    | some t =>
      obtain ⟨habs, hnow⟩ := handleRequest_spawned s.dataStore body d t hsp
      have hnot : t.key ∉ s.scheduled := fun hmem => hin t.key hmem habs
      refine ⟨?_, ?_⟩
      · simp only [step, hsp, Option.toList, List.map]
        exact List.Nodup.append hnd (List.nodup_singleton _) (by simpa using hnot)
      · intro k hk
        have hk0 : k ∈ s.scheduled ∨ k = t.key := by
          simpa [step, hsp] using hk
        rcases hk0 with hk0 | hk0
        · exact step_keeps_entry k s (.submit body d) (hin k hk0)
        · rw [hk0]
          exact hnow
  | complete i td =>
    have hsched : (step s (.complete i td)).scheduled = s.scheduled := by
      cases hp : s.pending.get? i with
      | none => rw [step_complete_none s i td hp]
      | some t => rw [step_complete_some s i td t hp]
    refine ⟨by rw [hsched]; exact hnd, ?_⟩
    intro k hk
    rw [hsched] at hk
    exact step_keeps_entry k s (.complete i td) (hin k hk)

theorem init_scheduledOnce : State.init.scheduledOnce :=
  ⟨List.nodup_nil, fun _ hk => absurd hk (List.not_mem_nil _)⟩

theorem key_euRequest : key euRequest = "EU20241000000" := by decide

theorem key_euRequestOther : key euRequestOther = "EU20241000000" := by decide

theorem generate_eu_slow :
    generate euRequest slowDraws =
      ({ Status := "processing", EstimatedTime := "45m0s" },
       some { key := "EU20241000000", email := "a@example.org", estimatedTime := 45 }) := by
  have hd : durationString 45 = "45m0s" := by decide
  have hmin : slowDraws.intn60 + 30 = 45 := by decide
  unfold generate
  rw [if_neg (by norm_num [slowDraws]), key_euRequest, hmin]
  simp only [hd]
  rfl

theorem generate_eu_fast :
    generate euRequest fastDraws =
      ({ Status := "ready", SyntheticPopulation := 123456, VerificationScore := 50 },
       none) := by
  unfold generate
  rw [if_pos (by norm_num [fastDraws])]
  norm_num [fastDraws]

/-- The state after one submission of the scenario request on the slow path. -/
theorem run_eu_slow :
    run State.init [.submit (.ok euRequest) slowDraws] = processingState := by
  rw [run_cons, run_nil, step_submit]
  have h : State.init.dataStore (key euRequest) = none := rfl
  rw [handleRequest_absent State.init.dataStore euRequest slowDraws h,
    generate_eu_slow, key_euRequest]
  rfl

/-- The state after one submission of the scenario request on the fast path. -/
theorem run_eu_fast :
    run State.init [.submit (.ok euRequest) fastDraws] =
      { dataStore := DataStore.empty.set "EU20241000000"
          { Status := "ready", SyntheticPopulation := 123456, VerificationScore := 50 },
        pending := [],
        scheduled := [] } := by
  rw [run_cons, run_nil, step_submit]
  have h : State.init.dataStore (key euRequest) = none := rfl
  rw [handleRequest_absent State.init.dataStore euRequest fastDraws h,
    generate_eu_fast, key_euRequest]
  rfl

/-- A submission whose key is present leaves the whole process state as it is. -/
theorem step_submit_found (s : State) (req : Request) (d : Draws) (r : Response)
    (h : s.dataStore (key req) = some r) : step s (.submit (.ok req) d) = s := by
  rw [step_submit, handleRequest_found _ req d r h]
  simp

/-- A run with three submissions of the scenario request and the completion
of its goroutine: one goroutine is started in all, and the record ends ready. -/
theorem run_eu_example :
    run State.init [.submit (.ok euRequest) slowDraws,
        .submit (.ok euRequestOther) fastDraws,
        .complete 0 sampleTaskDraws,
        .submit (.ok euRequest) slowDraws] = readyState ∧
    readyState.scheduled = ["EU20241000000"] ∧
    readyState.dataStore "EU20241000000" = some (Task.result sampleTaskDraws) := by
  have h1 : step State.init (.submit (.ok euRequest) slowDraws) = processingState :=
    run_eu_slow
  have h2 : step processingState (.submit (.ok euRequestOther) fastDraws) =
      processingState :=
    step_submit_found _ _ _ { Status := "processing", EstimatedTime := "45m0s" }
      (by rw [key_euRequestOther]; simp [processingState, DataStore.set])
  have h3 : step processingState (.complete 0 sampleTaskDraws) = readyState :=
    step_complete_some processingState 0 sampleTaskDraws
      { key := "EU20241000000", email := "a@example.org", estimatedTime := 45 } rfl
  have h4 : step readyState (.submit (.ok euRequest) slowDraws) = readyState :=
    step_submit_found _ _ _ (Task.result sampleTaskDraws)
      (by rw [key_euRequest]; simp [readyState, DataStore.set])
  refine ⟨?_, rfl, by simp [readyState, DataStore.set]⟩
  rw [run_cons, h1, run_cons, h2, run_cons, h3, run_cons, h4, run_nil]

/-! ## Facts about overlapping calls -/

theorem generate_euOther_slow :
    generate euRequestOther slowDraws =
      ({ Status := "processing", EstimatedTime := "45m0s" },
       some { key := "EU20241000000", email := "b@example.org", estimatedTime := 45 }) := by
  have hd : durationString 45 = "45m0s" := by decide
  have hmin : slowDraws.intn60 + 30 = 45 := by decide
  unfold generate
  rw [if_neg (by norm_num [slowDraws]), key_euRequestOther, hmin]
  simp only [hd]
  rfl

/-- The two steps of a call, taken one right after the other, are the atomic
call of the sequential system. -/
theorem Call.advance_twice (s : State) (req : Request) (d : Draws) :
    ∃ response,
      (handleRequest s.dataStore (.ok req) d).reply = .ok response ∧
      (((Call.start req d).advance s).2.advance ((Call.start req d).advance s).1) =
        (step s (.submit (.ok req) d),
         .done response (handleRequest s.dataStore (.ok req) d).spawned.isSome) := by
  rw [step_submit]
  cases hm : s.dataStore (key req) with
  | some response =>
    refine ⟨response, by rw [handleRequest_found _ req d response hm], ?_⟩
    rw [handleRequest_found _ req d response hm]
    simp [Call.advance, hm]
  | none =>
    refine ⟨(generate req d).1, by rw [handleRequest_absent _ req d hm], ?_⟩
    rw [handleRequest_absent _ req d hm]
    simp [Call.advance, hm]

theorem Call.advance_settled (k : String) (s : State) (c : Call)
    (hs : s.dataStore k ≠ none) (hc : c.settled k) :
    (c.advance s).1 = s ∧ (c.advance s).2.settled k := by
  cases c with
  | start req d =>
    refine ⟨rfl, ?_⟩
    show s.dataStore (key req) ≠ none
    have hk : key req = k := hc
    rw [hk]
    exact hs
  | looked req d found =>
    cases found with
    | none => exact absurd rfl hc
    | some response => exact ⟨rfl, rfl⟩
  | done response b => exact ⟨rfl, hc⟩

theorem Call.settled_spawned (k : String) (c : Call) (hc : c.settled k) :
    c.spawned = false := by
  cases c with
  | start req d => rfl
  | looked req d found => rfl
  | done response b => exact hc

theorem Overlap.schedule_nil (c : Overlap) : c.run [] = c := rfl

theorem Overlap.schedule_cons (c : Overlap) (turn : Bool) (turns : List Bool) :
    c.run (turn :: turns) = (c.step turn).run turns := rfl

/-- Once the first call is done and its key is in the map, a second call
for that key that has not yet read the map changes nothing. -/
theorem Overlap.run_first_done (k : String) (st : State) (response : Response)
    (b : Bool) (hst : st.dataStore k ≠ none) (turns : List Bool) :
    ∀ c : Overlap, c.state = st → c.first = .done response b → c.second.settled k →
      (c.run turns).state = st ∧ (c.run turns).first = .done response b ∧
        (c.run turns).second.settled k := by
  induction turns with
  | nil => intro c h1 h2 h3; exact ⟨h1, h2, h3⟩
  | cons turn turns ih =>
    intro c h1 h2 h3
    rw [Overlap.schedule_cons]
    cases turn with
    | false =>
      refine ih (c.step false) ?_ ?_ h3
      · show (c.first.advance c.state).1 = st
        rw [h2]
        exact h1
      · show (c.first.advance c.state).2 = _
        rw [h2]
        rfl
    | true =>
      have h := Call.advance_settled k c.state c.second (by rw [h1]; exact hst) h3
      exact ih (c.step true) (h.1.trans h1) h2 h.2

/-- The mirror image of `Overlap.run_first_done`. -/
theorem Overlap.run_second_done (k : String) (st : State) (response : Response)
    (b : Bool) (hst : st.dataStore k ≠ none) (turns : List Bool) :
    ∀ c : Overlap, c.state = st → c.second = .done response b → c.first.settled k →
      (c.run turns).state = st ∧ (c.run turns).second = .done response b ∧
        (c.run turns).first.settled k := by
  induction turns with
  | nil => intro c h1 h2 h3; exact ⟨h1, h2, h3⟩
  | cons turn turns ih =>
    intro c h1 h2 h3
    rw [Overlap.schedule_cons]
    cases turn with
    | true =>
      refine ih (c.step true) ?_ ?_ h3
      · show (c.second.advance c.state).1 = st
        rw [h2]
        exact h1
      · show (c.second.advance c.state).2 = _
        rw [h2]
        rfl
    | false =>
      have h := Call.advance_settled k c.state c.first (by rw [h1]; exact hst) h3
      exact ih (c.step false) (h.1.trans h1) h2 h.2

/-- One whole call adds at most one key to the history and leaves the key of
its request in the map. -/
theorem step_submit_effect (s : State) (req : Request) (d : Draws) :
    (step s (.submit (.ok req) d)).dataStore (key req) ≠ none ∧
    (step s (.submit (.ok req) d)).scheduled.length ≤ s.scheduled.length + 1 := by
  rw [step_submit]
  obtain ⟨response, _, hs⟩ := handleRequest_reply_stored s.dataStore req d
  refine ⟨?_, ?_⟩
  · show (handleRequest s.dataStore (.ok req) d).dataStore (key req) ≠ none
    rw [hs]
    exact Option.some_ne_none _
  · cases (handleRequest s.dataStore (.ok req) d).spawned <;> simp

/-! ## Claims about a single call -/

/-- C1. Deduplication on an existing record: when the key of the request is
already present in the store, `handleRequest` replies with exactly the stored
record, leaves the store as it was and starts no goroutine, whatever the
random draws are. -/
theorem handleRequest_existing_record (m : DataStore) (req : Request) (d : Draws)
    (response : Response) (h : m (key req) = some response) :
    (handleRequest m (.ok req) d).reply = .ok response ∧
    (handleRequest m (.ok req) d).dataStore = m ∧
    (handleRequest m (.ok req) d).spawned = none := by
  rw [handleRequest_found m req d response h]
  exact ⟨rfl, rfl, rfl⟩

/-- Witness for C1 on `sampleStore`. -/
theorem handleRequest_existing_record_witness :
    sampleStore (key euRequest) = some sampleRecord ∧
    (handleRequest sampleStore (.ok euRequest) fastDraws).reply = .ok sampleRecord ∧
    (handleRequest sampleStore (.ok euRequest) fastDraws).dataStore = sampleStore ∧
    (handleRequest sampleStore (.ok euRequest) fastDraws).spawned = none :=
  ⟨by simp [sampleStore, key, euRequest, DataStore.set],
   handleRequest_existing_record sampleStore euRequest fastDraws sampleRecord
     (by simp [sampleStore, key, euRequest, DataStore.set])⟩

/-- C4. Fingerprint determinism: two requests with equal Region, Year and
Population get the same key, whatever their Email fields are; consequently, on
any store and with any draws, `handleRequest` gives both the same reply and
the same resulting store. -/
theorem key_deterministic (r1 r2 : Request) (m : DataStore) (d : Draws)
    (hR : r1.Region = r2.Region) (hY : r1.Year = r2.Year)
    (hP : r1.Population = r2.Population) :
    key r1 = key r2 ∧
    (handleRequest m (.ok r1) d).reply = (handleRequest m (.ok r2) d).reply ∧
    (handleRequest m (.ok r1) d).dataStore = (handleRequest m (.ok r2) d).dataStore := by
  have hk : key r1 = key r2 := key_congr r1 r2 hR hY hP
  refine ⟨hk, ?_, ?_⟩
  · cases hm : m (key r2) with
    | none =>
      rw [handleRequest_absent m r2 d hm, handleRequest_absent m r1 d (hk ▸ hm)]
      simp [generate_fst_congr r1 r2 d]
    | some response =>
      rw [handleRequest_found m r2 d response hm,
        handleRequest_found m r1 d response (hk ▸ hm)]
  · cases hm : m (key r2) with
    | none =>
      rw [handleRequest_absent m r2 d hm, handleRequest_absent m r1 d (hk ▸ hm)]
      simp [generate_fst_congr r1 r2 d, hk]
    | some response =>
      rw [handleRequest_found m r2 d response hm,
        handleRequest_found m r1 d response (hk ▸ hm)]

/-- Witness for C4: the scenario request sent from two contact addresses. -/
theorem key_deterministic_witness :
    euRequest.Email ≠ euRequestOther.Email ∧
    key euRequest = key euRequestOther ∧
    (handleRequest DataStore.empty (.ok euRequest) slowDraws).reply =
      (handleRequest DataStore.empty (.ok euRequestOther) slowDraws).reply ∧
    (handleRequest DataStore.empty (.ok euRequest) slowDraws).dataStore =
      (handleRequest DataStore.empty (.ok euRequestOther) slowDraws).dataStore :=
  ⟨by decide,
   key_deterministic euRequest euRequestOther DataStore.empty slowDraws rfl rfl rfl⟩

/-- C5, evaluated on the code: the scenario request (year 2024, population
1000000) and a different logical request (year 202, population 41000000) get
the same key, and on every store the second one is answered with the record
of the first and starts no work of its own. -/
theorem key_collision :
    (euRequest.Region, euRequest.Year, euRequest.Population) ≠
      (euRequestShifted.Region, euRequestShifted.Year, euRequestShifted.Population) ∧
    key euRequest = key euRequestShifted ∧
    ∀ (m : DataStore) (d1 d2 : Draws),
      (handleRequest (handleRequest m (.ok euRequest) d1).dataStore
          (.ok euRequestShifted) d2).reply =
        (handleRequest m (.ok euRequest) d1).reply ∧
      (handleRequest (handleRequest m (.ok euRequest) d1).dataStore
          (.ok euRequestShifted) d2).spawned = none := by
  have hk : key euRequest = key euRequestShifted := by decide
  refine ⟨by decide, hk, ?_⟩
  intro m d1 d2
  obtain ⟨response, hr, hs⟩ := handleRequest_reply_stored m euRequest d1
  rw [hk] at hs
  rw [handleRequest_found _ euRequestShifted d2 response hs, hr]
  exact ⟨rfl, rfl⟩

/-- C6 fails on the code: a decoded request whose Region is empty is not
rejected; on the empty store it is answered with a processing record, that
record is inserted under the key built from the two remaining fields, and a
goroutine is started. -/
theorem missing_region_accepted :
    noRegionRequest.Region = "" ∧
    (handleRequest DataStore.empty (.ok noRegionRequest) slowDraws).reply =
      .ok { Status := "processing", EstimatedTime := "45m0s" } ∧
    (handleRequest DataStore.empty (.ok noRegionRequest) slowDraws).dataStore
        "20241000000" =
      some { Status := "processing", EstimatedTime := "45m0s" } ∧
    (handleRequest DataStore.empty (.ok noRegionRequest) slowDraws).spawned =
      some { key := "20241000000", email := "a@example.org", estimatedTime := 45 } := by
  have hg : generate noRegionRequest slowDraws =
      ({ Status := "processing", EstimatedTime := "45m0s" },
       some { key := "20241000000", email := "a@example.org", estimatedTime := 45 }) := by
    have hd : durationString 45 = "45m0s" := by decide
    have hkey : key noRegionRequest = "20241000000" := by decide
    have hmin : slowDraws.intn60 + 30 = 45 := by decide
    unfold generate
    rw [if_neg (by norm_num [slowDraws]), hkey, hmin]
    simp only [hd]
    rfl
  have hkey : key noRegionRequest = "20241000000" := by decide
  rw [handleRequest_absent DataStore.empty noRegionRequest slowDraws rfl, hg, hkey]
  refine ⟨rfl, rfl, ?_, rfl⟩
  simp [DataStore.set]

/-- C6 as amended: the only rejection is that of a body the decoder refused,
which leaves the store unchanged and starts no goroutine; a decoded request is
never rejected, whatever its fields hold, and after the call the store holds
the returned record under the concatenation of its three fields. -/
theorem handleRequest_rejects_only_decode_errors :
    (∀ (m : DataStore) (err : String) (d : Draws),
      (handleRequest m (.error err) d).reply = .badRequest err ∧
      (handleRequest m (.error err) d).dataStore = m ∧
      (handleRequest m (.error err) d).spawned = none) ∧
    (∀ (m : DataStore) (req : Request) (d : Draws),
      ∃ response, (handleRequest m (.ok req) d).reply = .ok response ∧
        (handleRequest m (.ok req) d).dataStore
          (req.Region ++ req.Year ++ req.Population) = some response) :=
  ⟨fun _ _ _ => ⟨rfl, rfl, rfl⟩, fun m req d => handleRequest_reply_stored m req d⟩

/-- C7. Back-to-back submissions agree: on a store that lacks the key, two
consecutive calls with equal Region, Year and Population (no goroutine
finishing in between) get the same reply, whatever the draws of either call
are: the second call returns the record the first one built, changes nothing
and starts nothing; when the first reply is a processing record, so is the
second, with the same EstimatedTime. -/
theorem back_to_back_agree (m : DataStore) (r1 r2 : Request) (d1 d2 : Draws)
    (habs : m (key r1) = none)
    (hR : r1.Region = r2.Region) (hY : r1.Year = r2.Year)
    (hP : r1.Population = r2.Population) :
    (handleRequest m (.ok r1) d1).reply = .ok (generate r1 d1).1 ∧
    (handleRequest (handleRequest m (.ok r1) d1).dataStore (.ok r2) d2).reply =
      (handleRequest m (.ok r1) d1).reply ∧
    (handleRequest (handleRequest m (.ok r1) d1).dataStore (.ok r2) d2).dataStore =
      (handleRequest m (.ok r1) d1).dataStore ∧
    (handleRequest (handleRequest m (.ok r1) d1).dataStore (.ok r2) d2).spawned = none ∧
    ∀ a, (handleRequest m (.ok r1) d1).reply = .ok a → a.Status = "processing" →
      ∃ b, (handleRequest (handleRequest m (.ok r1) d1).dataStore (.ok r2) d2).reply = .ok b ∧
        b.Status = "processing" ∧ b.EstimatedTime = a.EstimatedTime := by
  have hk : key r1 = key r2 := key_congr r1 r2 hR hY hP
  have h1 : (handleRequest m (.ok r1) d1).reply = .ok (generate r1 d1).1 := by
    rw [handleRequest_absent m r1 d1 habs]
  obtain ⟨response, hr, hs⟩ := handleRequest_reply_stored m r1 d1
  rw [hk] at hs
  have h2 := handleRequest_found _ r2 d2 response hs
  refine ⟨h1, ?_, ?_, ?_, ?_⟩
  · rw [h2, hr]
  · rw [h2]
  · rw [h2]
  · intro a ha hproc
    rw [hr] at ha
    cases ha
    exact ⟨response, by rw [h2], hproc, rfl⟩

/-- Witness for C7: the scenario request, submitted twice on the empty store,
gets the processing record with a 45 minute estimate both times although the
second call draws the fast path. -/
theorem back_to_back_agree_witness :
    (handleRequest DataStore.empty (.ok euRequest) slowDraws).reply =
      .ok { Status := "processing", EstimatedTime := "45m0s" } ∧
    (handleRequest (handleRequest DataStore.empty (.ok euRequest) slowDraws).dataStore
        (.ok euRequestOther) fastDraws).reply =
      .ok { Status := "processing", EstimatedTime := "45m0s" } := by
  have h := back_to_back_agree DataStore.empty euRequest euRequestOther slowDraws
    fastDraws rfl rfl rfl rfl
  have hd : durationString 45 = "45m0s" := by decide
  have hmin : slowDraws.intn60 + 30 = 45 := by decide
  have hg : (generate euRequest slowDraws).1 =
      { Status := "processing", EstimatedTime := "45m0s" } := by
    unfold generate
    rw [if_neg (by norm_num [slowDraws]), hmin]
    simp only [hd]
  rw [h.2.1, h.1, hg]
  exact ⟨rfl, rfl⟩

/-- C9. Result bounds: with draws in the ranges `math/rand` promises, a ready
record built by `handleRequest` for an absent key, and the record a goroutine
stores under its key when it finishes (always a ready one), have
SyntheticPopulation in `[0, 1000000)` and VerificationScore in `[0, 100)`. -/
theorem ready_record_bounds (m : DataStore) (req : Request) (d : Draws)
    (t : Task) (td : TaskDraws) (response : Response)
    (hd : d.valid) (htd : td.valid) (habs : m (key req) = none)
    (hreply : (handleRequest m (.ok req) d).reply = .ok response)
    (hready : response.Status = "ready") :
    (0 ≤ response.SyntheticPopulation ∧ response.SyntheticPopulation < 1000000 ∧
      0 ≤ response.VerificationScore ∧ response.VerificationScore < 100) ∧
    (t.run m td t.key = some (Task.result td) ∧
      (Task.result td).Status = "ready" ∧
      0 ≤ (Task.result td).SyntheticPopulation ∧
      (Task.result td).SyntheticPopulation < 1000000 ∧
      0 ≤ (Task.result td).VerificationScore ∧
      (Task.result td).VerificationScore < 100) := by
  obtain ⟨_, _, hp0, hp1, hf0, hf1, _, _⟩ := hd
  obtain ⟨tp0, tp1, tf0, tf1⟩ := htd
  constructor
  · rw [handleRequest_absent m req d habs] at hreply
    simp only [Reply.ok.injEq] at hreply
    unfold generate at hreply
    split at hreply
    · subst hreply
      refine ⟨hp0, hp1, ?_, ?_⟩
      · show 0 ≤ d.float64 * 100
        positivity
      · show d.float64 * 100 < 100
        linarith
    · subst hreply
      have hne : ("processing" : String) ≠ "ready" := by decide
      exact absurd hready hne
  · refine ⟨DataStore.set_same _ _ _, rfl, tp0, tp1, ?_, ?_⟩
    · show 0 ≤ td.float64 * 100
      positivity
    · show td.float64 * 100 < 100
      linarith

/-- Witness for C9: the fast path on the empty store, and a goroutine
finishing on the empty store. -/
theorem ready_record_bounds_witness :
    fastDraws.valid ∧ sampleTaskDraws.valid ∧
    DataStore.empty (key euRequest) = none ∧
    (handleRequest DataStore.empty (.ok euRequest) fastDraws).reply =
      .ok { Status := "ready", SyntheticPopulation := 123456, VerificationScore := 50 } ∧
    ((0 : Int) ≤ 123456 ∧ (123456 : Int) < 1000000 ∧ (0 : ℚ) ≤ 50 ∧ (50 : ℚ) < 100) ∧
    (Task.run { key := "EU20241000000", email := "a@example.org", estimatedTime := 45 }
        DataStore.empty sampleTaskDraws "EU20241000000" =
        some (Task.result sampleTaskDraws) ∧
      (Task.result sampleTaskDraws).Status = "ready" ∧
      0 ≤ (Task.result sampleTaskDraws).SyntheticPopulation ∧
      (Task.result sampleTaskDraws).SyntheticPopulation < 1000000 ∧
      0 ≤ (Task.result sampleTaskDraws).VerificationScore ∧
      (Task.result sampleTaskDraws).VerificationScore < 100) := by
  have hv : fastDraws.valid := by norm_num [Draws.valid, fastDraws]
  have htv : sampleTaskDraws.valid := by norm_num [TaskDraws.valid, sampleTaskDraws]
  have hr : (handleRequest DataStore.empty (.ok euRequest) fastDraws).reply =
      .ok { Status := "ready", SyntheticPopulation := 123456, VerificationScore := 50 } := by
    rw [handleRequest_absent DataStore.empty euRequest fastDraws rfl, generate_eu_fast]
  exact ⟨hv, htv, rfl, hr,
    ready_record_bounds DataStore.empty euRequest fastDraws
      { key := "EU20241000000", email := "a@example.org", estimatedTime := 45 }
      sampleTaskDraws
      { Status := "ready", SyntheticPopulation := 123456, VerificationScore := 50 }
      hv htv rfl hr rfl⟩

/-! ## Claims about runs of the sequential system -/

/-- C2. At most one fulfillment per fingerprint: after any finite sequence of
whole `handleRequest` calls and completions of started goroutines, from the
empty store, the history of started goroutines holds each key at most once. -/
theorem at_most_one_fulfillment (evs : List Event) (k : String) :
    (run State.init evs).scheduled.count k ≤ 1 :=
  List.nodup_iff_count_le_one.mp
    (run_preserves State.scheduledOnce step_scheduledOnce evs State.init
      init_scheduledOnce).1 k

/-- C10. Record well-formedness: in every state reached from the empty store
by whole `handleRequest` calls and goroutine completions, a stored record is
either a processing record with a non-empty EstimatedTime and zero
SyntheticPopulation and VerificationScore, or a ready record with an empty
EstimatedTime; no other status occurs. -/
theorem stored_record_wellFormed (evs : List Event) (k : String) (r : Response)
    (h : (run State.init evs).dataStore k = some r) :
    (r.Status = "processing" ∧ r.EstimatedTime ≠ "" ∧
      r.SyntheticPopulation = 0 ∧ r.VerificationScore = 0) ∨
    (r.Status = "ready" ∧ r.EstimatedTime = "") :=
  run_preserves (fun s => ∀ k r, s.dataStore k = some r → r.wellFormed)
    step_wellFormed evs State.init (fun _ _ h0 => by cases h0) k r h

/-- Witness for C10: the record stored by a slow-path submission. -/
theorem stored_record_wellFormed_witness :
    (run State.init [.submit (.ok euRequest) slowDraws]).dataStore "EU20241000000" =
      some { Status := "processing", EstimatedTime := "45m0s" } ∧
    ((("processing" : String) = "processing" ∧ ("45m0s" : String) ≠ "" ∧
        (0 : Int) = 0 ∧ (0 : ℚ) = 0) ∨
      (("processing" : String) = "ready" ∧ ("45m0s" : String) = "")) := by
  have h0 : (run State.init [.submit (.ok euRequest) slowDraws]).dataStore
      "EU20241000000" = some { Status := "processing", EstimatedTime := "45m0s" } := by
    rw [run_eu_slow]
    simp [processingState, DataStore.set]
  exact ⟨h0, stored_record_wellFormed [.submit (.ok euRequest) slowDraws]
    "EU20241000000" { Status := "processing", EstimatedTime := "45m0s" } h0⟩

/-! ## Claims about overlapping calls -/

/-- C3 fails on the code: two calls for the scenario request on the empty
store, scheduled as lookup, lookup, insert, insert, both find the key absent
and both start a goroutine; the history then holds the key twice. -/
theorem overlapping_calls_both_spawn :
    State.init.dataStore (key euRequest) = none ∧
    key euRequest = key euRequestOther ∧
    ((Overlap.begin State.init euRequest euRequestOther slowDraws slowDraws).run
        [false, true, false, true]).first.spawned = true ∧
    ((Overlap.begin State.init euRequest euRequestOther slowDraws slowDraws).run
        [false, true, false, true]).second.spawned = true ∧
    ((Overlap.begin State.init euRequest euRequestOther slowDraws slowDraws).run
        [false, true, false, true]).state.scheduled =
      ["EU20241000000", "EU20241000000"] := by
  have hrun : (Overlap.begin State.init euRequest euRequestOther slowDraws slowDraws).run
      [false, true, false, true] =
      { state :=
          { dataStore := (DataStore.empty.set "EU20241000000"
                { Status := "processing", EstimatedTime := "45m0s" }).set "EU20241000000"
                { Status := "processing", EstimatedTime := "45m0s" },
            pending := [{ key := "EU20241000000", email := "a@example.org",
                          estimatedTime := 45 },
                        { key := "EU20241000000", email := "b@example.org",
                          estimatedTime := 45 }],
            scheduled := ["EU20241000000", "EU20241000000"] },
        first := .done { Status := "processing", EstimatedTime := "45m0s" } true,
        second := .done { Status := "processing", EstimatedTime := "45m0s" } true } := by
    simp [Overlap.run, Overlap.begin, Overlap.step, Call.advance, State.init,
      DataStore.empty, generate_eu_slow, generate_euOther_slow, key_euRequest,
      key_euRequestOther]
  rw [hrun]
  exact ⟨rfl, by decide, rfl, rfl, rfl⟩

/-- C3 as amended: when two calls with the same key overlap in such a way
that one of them performs its lookup and its insert before the other performs
its lookup, at most one of them starts a goroutine, and the history of
started goroutines grows by at most one entry, however the remaining steps
are scheduled. -/
theorem serial_calls_spawn_at_most_once (s : State) (r1 r2 : Request)
    (d1 d2 : Draws) (turn : Bool) (rest : List Bool) (hk : key r1 = key r2) :
    ¬ (((Overlap.begin s r1 r2 d1 d2).run (turn :: turn :: rest)).first.spawned = true ∧
       ((Overlap.begin s r1 r2 d1 d2).run (turn :: turn :: rest)).second.spawned = true) ∧
    ((Overlap.begin s r1 r2 d1 d2).run (turn :: turn :: rest)).state.scheduled.length ≤
      s.scheduled.length + 1 := by
  rw [Overlap.schedule_cons, Overlap.schedule_cons]
  cases turn with
  | false =>
    obtain ⟨response, _, hadv⟩ := Call.advance_twice s r1 d1
    obtain ⟨hstored, hlen⟩ := step_submit_effect s r1 d1
    obtain ⟨h1, _, h3⟩ := Overlap.run_first_done (key r1) _ response _ hstored rest
      (((Overlap.begin s r1 r2 d1 d2).step false).step false)
      (congrArg Prod.fst hadv) (congrArg Prod.snd hadv) hk.symm
    refine ⟨?_, ?_⟩
    · intro hboth
      rw [Call.settled_spawned _ _ h3] at hboth
      exact Bool.false_ne_true hboth.2
    · rw [h1]
      exact hlen
  | true =>
    obtain ⟨response, _, hadv⟩ := Call.advance_twice s r2 d2
    obtain ⟨hstored, hlen⟩ := step_submit_effect s r2 d2
    obtain ⟨h1, _, h3⟩ := Overlap.run_second_done (key r2) _ response _ hstored rest
      (((Overlap.begin s r1 r2 d1 d2).step true).step true)
      (congrArg Prod.fst hadv) (congrArg Prod.snd hadv) hk
    refine ⟨?_, ?_⟩
    · intro hboth
      rw [Call.settled_spawned _ _ h3] at hboth
      exact Bool.false_ne_true hboth.1
    · rw [h1]
      exact hlen

/-- Witness for C3 as amended: the two calls of the scenario, the second one
running to its end before the first one reads the map. -/
theorem serial_calls_spawn_at_most_once_witness :
    key euRequest = key euRequestOther ∧
    ¬ (((Overlap.begin State.init euRequest euRequestOther slowDraws slowDraws).run
          [true, true, false, false]).first.spawned = true ∧
       ((Overlap.begin State.init euRequest euRequestOther slowDraws slowDraws).run
          [true, true, false, false]).second.spawned = true) ∧
    ((Overlap.begin State.init euRequest euRequestOther slowDraws slowDraws).run
        [true, true, false, false]).state.scheduled.length ≤
      State.init.scheduled.length + 1 :=
  ⟨by decide,
   serial_calls_spawn_at_most_once State.init euRequest euRequestOther slowDraws
     slowDraws true [false, false] (by decide)⟩

end Synthpop
